import Mathlib

/-!
Verification of the order business-rule engine of the
`purchase-order-dns` repository: the role/ownership permission model
(`src/lib/auth/permissions.ts`), the order status state machine and the
zod validation schemas for orders (`src/lib/validations/schemas/order.ts`).

The TypeScript code is shallowly embedded: enums become inductive types,
optional/nullable fields become `Option`, JS numbers used for monetary
values become `Rat`, and each zod `.refine` chain becomes a function
collecting the paths of the violated refinements (zod collects all
refinement issues rather than short-circuiting; a parse succeeds iff the
list of issues is empty).
-/

namespace PODNS

/-- `UserRole` from `src/types/globals.ts`: "ADMIN" | "MANAGER" | "SALES" | "BASIC". -/
inductive UserRole
  | ADMIN
  | MANAGER
  | SALES
  | BASIC
deriving DecidableEq, Repr

/-- The `Permission` enum of `src/lib/auth/permissions.ts`. -/
inductive Permission
  | STORE_CREATE
  | STORE_READ
  | STORE_READ_ALL
  | STORE_UPDATE
  | STORE_DELETE
  | PRODUCT_CREATE
  | PRODUCT_READ
  | PRODUCT_UPDATE
  | PRODUCT_DELETE
  | PRODUCT_MANAGE_PRICES
  | ORDER_CREATE
  | ORDER_READ
  | ORDER_READ_OWN
  | ORDER_READ_ALL
  | ORDER_UPDATE
  | ORDER_DELETE
  | ORDER_APPROVE
  | ORDER_REJECT
  | ORDER_GENERATE_PO
  | VISIT_CREATE
  | VISIT_READ
  | VISIT_READ_OWN
  | VISIT_READ_ALL
  | VISIT_UPDATE
  | VISIT_DELETE
  | VISIT_DELETE_ALL
  | USER_READ
  | USER_UPDATE
  | USER_MANAGE_ROLES
  | USER_DELETE
  | REPORT_VIEW
  | BASIC
deriving DecidableEq, Repr

open Permission in
/-- The static `ROLE_PERMISSIONS` table of `src/lib/auth/permissions.ts`,
transcribed entry for entry. -/
def ROLE_PERMISSIONS : UserRole → List Permission
  | .ADMIN =>
    [STORE_CREATE, STORE_READ, STORE_READ_ALL, STORE_UPDATE, STORE_DELETE,
     PRODUCT_CREATE, PRODUCT_READ, PRODUCT_UPDATE, PRODUCT_DELETE,
     PRODUCT_MANAGE_PRICES,
     ORDER_CREATE, ORDER_READ, ORDER_READ_ALL, ORDER_UPDATE, ORDER_DELETE,
     ORDER_APPROVE, ORDER_REJECT, ORDER_GENERATE_PO,
     VISIT_CREATE, VISIT_READ, VISIT_READ_ALL, VISIT_UPDATE, VISIT_DELETE,
     VISIT_DELETE_ALL,
     USER_READ, USER_UPDATE, USER_MANAGE_ROLES, USER_DELETE,
     REPORT_VIEW, BASIC]
  | .SALES =>
    [STORE_READ, STORE_CREATE,
     PRODUCT_READ,
     ORDER_CREATE, ORDER_READ, ORDER_READ_OWN, ORDER_UPDATE,
     VISIT_CREATE, VISIT_READ, VISIT_READ_OWN, VISIT_UPDATE,
     BASIC]
  | .MANAGER =>
    [STORE_READ, STORE_READ_ALL,
     PRODUCT_READ,
     ORDER_READ, ORDER_READ_ALL,
     VISIT_READ, VISIT_READ_ALL,
     USER_READ,
     REPORT_VIEW, BASIC]
  | .BASIC => [BASIC]

/-- `validateUserRole` of `src/lib/auth/permissions.ts`:
returns the input when it is one of the four role strings, else "BASIC".
(`validRoles.includes(role) ? role : "BASIC"`; total, never throws.) -/
def validateUserRole (role : String) : String :=
  let validRoles : List String := ["ADMIN", "MANAGER", "SALES", "BASIC"]
  if validRoles.contains role then role else "BASIC"

/-- `hasPermission` of `src/lib/auth/permissions.ts`. The optional
`userId`/`resourceOwnerId` parameters become `Option String`; the JS
strict equality `userId === resourceOwnerId` (where `undefined ===
undefined` is `true`) becomes `Option.beq`, which likewise deems two
`none`s equal. -/
def hasPermission (userRole : UserRole) (permission : Permission)
    (isUserActive : Bool := true) (userId : Option String := none)
    (resourceOwnerId : Option String := none) : Bool :=
  if !isUserActive && permission != Permission.BASIC then
    false
  else if !(ROLE_PERMISSIONS userRole).contains permission then
    false
  else if permission = Permission.ORDER_READ_OWN
       || permission = Permission.VISIT_READ_OWN then
    userId == resourceOwnerId
  else
    true

/-- `BusinessRules.canEditOrder` of `src/lib/auth/permissions.ts`. -/
def canEditOrder (role : UserRole) (orderStatus : String)
    (userId : String) (orderOwnerId : String) : Bool :=
  if role = .ADMIN then true
  else if role = .SALES && orderStatus = "DRAFT" && userId = orderOwnerId then
    true
  else false

/-- `OrderStatus` from `src/lib/validations/schemas/enums.ts`
(`OrderStatusEnum`). -/
inductive OrderStatus
  | DRAFT
  | DISETUJUI
  | TERKIRIM
  | TIDAK_TERKIRIM
deriving DecidableEq, Repr

/-- The string value carried by each `OrderStatusEnum` member. -/
def OrderStatus.toStr : OrderStatus → String
  | .DRAFT => "DRAFT"
  | .DISETUJUI => "DISETUJUI"
  | .TERKIRIM => "TERKIRIM"
  | .TIDAK_TERKIRIM => "TIDAK_TERKIRIM"

/-- `DiscountType` from `src/lib/validations/schemas/enums.ts`. -/
inductive DiscountType
  | PERCENTAGE
  | FIXED
deriving DecidableEq, Repr

/-- `PriceType` from `src/lib/validations/schemas/enums.ts`. -/
inductive PriceType
  | GROSIR
  | SEMI_GROSIR
  | RETAIL
  | MODERN
  | CUSTOM
deriving DecidableEq, Repr

/-- The own entries of the `statusTransitionMap` plain-object literal of
`src/lib/validations/schemas/order.ts`: `some` on its four own keys,
`none` otherwise. A JS bracket lookup on any other key falls through to
the prototype chain; that part of the lookup is modelled in
`validateStatusTransition`. -/
def statusTransitionMap (status : String) : Option (List String) :=
  if status = "DRAFT" then some ["DISETUJUI", "TIDAK_TERKIRIM"]
  else if status = "DISETUJUI" then some ["TERKIRIM", "TIDAK_TERKIRIM"]
  else if status = "TERKIRIM" then some []
  else if status = "TIDAK_TERKIRIM" then some ["DISETUJUI"]
  else none

/-- The property names a plain object literal inherits from
`Object.prototype` (including the Annex B `__proto__` accessor): a
bracket lookup with one of these keys returns the inherited member, not
`undefined`. -/
def objectPrototypeMemberNames : List String :=
  ["constructor", "hasOwnProperty", "isPrototypeOf", "propertyIsEnumerable",
   "toLocaleString", "toString", "valueOf", "__proto__",
   "__defineGetter__", "__defineSetter__", "__lookupGetter__",
   "__lookupSetter__"]

/-- `validateStatusTransition` of `src/lib/validations/schemas/order.ts`:
`statusTransitionMap[currentStatus]?.includes(newStatus) ?? false`.
On one of the four own keys the lookup yields the array and the call
returns `includes`. On a property name inherited from `Object.prototype`
(e.g. "constructor", "toString", "__proto__") the lookup yields the
inherited member, which is non-nullish, so `?.` does not short-circuit;
`.includes` on that member is `undefined` and calling it throws a
`TypeError`, modelled as `none`. On every other key the lookup yields
`undefined`, `?.` short-circuits and `?? false` produces `false`. -/
def validateStatusTransition (currentStatus newStatus : String) : Option Bool :=
  match statusTransitionMap currentStatus with
  | some allowed => some (allowed.contains newStatus)
  | none =>
    if currentStatus ∈ objectPrototypeMemberNames then none
    else some false

/-- JS `String.prototype.padStart(targetLength, "0")`: left-pads with
zeros up to `targetLength`; a string already at least that long is
returned unchanged (never truncated). -/
def padZero (s : String) (targetLength : Nat) : String :=
  if s.length < targetLength then
    String.mk (List.replicate (targetLength - s.length) '0') ++ s
  else s

/-- `generateOrderNumber` of `src/lib/validations/schemas/order.ts`.
The TS function reads `new Date()`; the current date is passed here as
explicit arguments `year` (`getFullYear()`), `month` (`getMonth() + 1`,
1-based) and `day` (`getDate()`). -/
def generateOrderNumber (year month day : Nat) (sequence : Nat := 1) : String :=
  let monthStr := padZero (toString month) 2
  let dayStr := padZero (toString day) 2
  let dateStr := toString year ++ monthStr ++ dayStr
  let seq := padZero (toString sequence) 3
  "PO-" ++ dateStr ++ "-" ++ seq

/-- The payload accepted by `createOrderItemBaseSchema` in
`src/lib/validations/schemas/order.ts` (after base parsing: defaults
applied, strings trimmed where the base schema trims, nullable/optional
fields as `Option`). Monetary JS numbers are embedded as `Rat`. -/
structure CreateOrderItem where
  productId : String
  quantity : Int
  priceType : PriceType
  customPrice : Option Rat
  customPriceReason : Option String
  itemDiscountType : Option DiscountType
  itemDiscountValue : Rat
  itemDiscountDescription : Option String
deriving DecidableEq, Repr

/-- The three `.refine`s of `CreateOrderItemSchema`, in order, each
contributing its `path` when violated (zod collects all refinement
issues; the parse succeeds iff this list is empty). -/
def createOrderItemIssues (d : CreateOrderItem) : List (List String) :=
  (if d.priceType == PriceType.CUSTOM
      && !(match d.customPrice with
           | some p => decide ((0 : Rat) < p)
           | none => false) then
     [["customPrice"]]
   else []) ++
  (if d.priceType == PriceType.CUSTOM
      && !(match d.customPriceReason with
           | some r => r.trim != ""
           | none => false) then
     [["customPriceReason"]]
   else []) ++
  (if d.itemDiscountType == some DiscountType.PERCENTAGE
      && !(decide (d.itemDiscountValue ≤ (100 : Rat))) then
     [["itemDiscountValue"]]
   else [])

/-- The payload accepted by `updateOrderItemBaseSchema`
(`createOrderItemBaseSchema` extended with an optional `id` and the
soft-delete marker `isDeleted`). -/
structure UpdateOrderItem extends CreateOrderItem where
  id : Option String
  isDeleted : Option Bool
deriving DecidableEq, Repr

/-- The three `.refine`s of `UpdateOrderItemSchema`, textually identical
to those of `CreateOrderItemSchema`. -/
def updateOrderItemIssues (d : UpdateOrderItem) : List (List String) :=
  (if d.priceType == PriceType.CUSTOM
      && !(match d.customPrice with
           | some p => decide ((0 : Rat) < p)
           | none => false) then
     [["customPrice"]]
   else []) ++
  (if d.priceType == PriceType.CUSTOM
      && !(match d.customPriceReason with
           | some r => r.trim != ""
           | none => false) then
     [["customPriceReason"]]
   else []) ++
  (if d.itemDiscountType == some DiscountType.PERCENTAGE
      && !(decide (d.itemDiscountValue ≤ (100 : Rat))) then
     [["itemDiscountValue"]]
   else [])

/-- The payload accepted by `createOrderBaseSchema`. -/
structure CreateOrder where
  storeId : String
  salesId : String
  visitId : Option String
  orderDiscountType : Option DiscountType
  orderDiscountValue : Rat
  orderDiscountDescription : Option String
  notes : Option String
  items : List CreateOrderItem
deriving DecidableEq, Repr

/-- The two `.refine`s of `CreateOrderSchema`: the order-level
percentage-discount bound, and the duplicate-product check
`new Set(productIds).size === productIds.length` (the number of
distinct product ids, `productIds.dedup.length`, must equal the
number of items). -/
def createOrderIssues (d : CreateOrder) : List (List String) :=
  (if d.orderDiscountType == some DiscountType.PERCENTAGE
      && !(decide (d.orderDiscountValue ≤ (100 : Rat))) then
     [["orderDiscountValue"]]
   else []) ++
  (let productIds := d.items.map (·.productId)
   if productIds.dedup.length == productIds.length then []
   else [["items"]])

/-- The payload accepted by `updateOrderBaseSchema`. `orderDiscountValue`
is optional with no default here; `z.date()` fields are embedded as an
epoch timestamp. -/
structure UpdateOrder where
  id : String
  orderDiscountType : Option DiscountType
  orderDiscountValue : Option Rat
  orderDiscountDescription : Option String
  notes : Option String
  deliveryDate : Option Int
  items : List UpdateOrderItem
deriving DecidableEq, Repr

/-- The two `.refine`s of `UpdateOrderSchema`: the percentage bound
(passing when `orderDiscountValue === undefined`), and the
duplicate-product check restricted to items with `!item.isDeleted`. -/
def updateOrderIssues (d : UpdateOrder) : List (List String) :=
  (if d.orderDiscountType == some DiscountType.PERCENTAGE
      && !(match d.orderDiscountValue with
           | none => true
           | some v => decide (v ≤ (100 : Rat))) then
     [["orderDiscountValue"]]
   else []) ++
  (let nonDeletedItems := d.items.filter (fun item => !(item.isDeleted.getD false))
   let productIds := nonDeletedItems.map (·.productId)
   if productIds.dedup.length == productIds.length then []
   else [["items"]])

/-- The payload accepted by `UpdateOrderStatusSchema`'s inner object. -/
structure UpdateOrderStatus where
  id : String
  currentStatus : OrderStatus
  newStatus : OrderStatus
  rejectionReason : Option String
  deliveryDate : Option Int
  userId : String
  userName : Option String
  notes : Option String
deriving DecidableEq, Repr

/-- The single `.refine` of `UpdateOrderStatusSchema`: it validates the
status transition via `validateStatusTransition` and nothing else. Both
statuses are already enum-validated here, so the lookup always hits an
own key and `validateStatusTransition` returns `some` of the boolean the
refinement reports. -/
def updateOrderStatusIssues (d : UpdateOrderStatus) : List (List String) :=
  if validateStatusTransition d.currentStatus.toStr d.newStatus.toStr = some true then []
  else [["newStatus"]]

/-- Structural view of the decimal digit list produced by `Nat.repr`
(least-significant digit processed last), used to reason about the
length and character class of `toString n`. -/
def decimalDigits (n : Nat) : List Char :=
  if _h : n < 10 then [Nat.digitChar n]
  else decimalDigits (n / 10) ++ [Nat.digitChar (n % 10)]
termination_by n
decreasing_by exact Nat.div_lt_self (by omega) (by omega)

/-- The order-number format `PO-YYYYMMDD-NNN` from the spec: the literal
prefix "PO-", an 8-character all-digit date block, a hyphen, and a
3-character all-digit sequence block. -/
def isPOFormat (s : String) : Prop :=
  ∃ dateStr seqStr : String,
    s = "PO-" ++ dateStr ++ "-" ++ seqStr ∧
    dateStr.length = 8 ∧ dateStr.data.all Char.isDigit = true ∧
    seqStr.length = 3 ∧ seqStr.data.all Char.isDigit = true

/-- A CUSTOM-priced order item carrying `customPrice = 0`, the scenario
named by the spec. -/
def customZeroItem : CreateOrderItem :=
  { productId := "p1", quantity := 1, priceType := PriceType.CUSTOM,
    customPrice := some 0, customPriceReason := some "promo",
    itemDiscountType := none, itemDiscountValue := 0,
    itemDiscountDescription := none }

/-! ### Helper lemmas -/

theorem mem_ite_singleton {α : Type} (a b : α) (c : Prop) [Decidable c] :
    a ∈ (if c then [b] else []) ↔ (c ∧ a = b) := by
  split_ifs with h <;> simp [h]

theorem mem_ite_nil_singleton {α : Type} (a b : α) (c : Prop) [Decidable c] :
    a ∈ (if c then [] else [b]) ↔ (¬ c ∧ a = b) := by
  split_ifs with h <;> simp [h]

theorem dedup_length_eq_iff {α : Type} [DecidableEq α] (l : List α) :
    l.dedup.length = l.length ↔ l.Nodup := by
  constructor
  · intro h
    have heq : l.dedup = l := (List.dedup_sublist l).eq_of_length h
    rw [← heq]
    exact List.nodup_dedup l
  · intro h
    rw [List.dedup_eq_self.mpr h]

theorem toDigitsCore_eq_decimalDigits (f : Nat) :
    ∀ (n : Nat) (acc : List Char), n < f →
      Nat.toDigitsCore 10 f n acc = decimalDigits n ++ acc := by
  induction f with
  | zero => intro n acc h; omega
  | succ f ih =>
    intro n acc h
    simp only [Nat.toDigitsCore]
    by_cases h10 : n / 10 = 0
    · have hn : n < 10 := by omega
      rw [if_pos h10, decimalDigits, dif_pos hn, Nat.mod_eq_of_lt hn]
      simp
    · have hn : ¬ n < 10 := by
        intro hlt
        exact h10 (Nat.div_eq_of_lt hlt)
      have hunfold : decimalDigits n = decimalDigits (n / 10) ++ [Nat.digitChar (n % 10)] := by
        rw [decimalDigits, dif_neg hn]
      rw [if_neg h10, ih (n / 10) _ (by omega), hunfold]
      simp

theorem repr_eq_decimalDigits (n : Nat) :
    Nat.repr n = (decimalDigits n).asString := by
  rw [Nat.repr, Nat.toDigits, toDigitsCore_eq_decimalDigits (n + 1) n [] (by omega)]
  simp

theorem decimalDigits_length (e : Nat) :
    ∀ n : Nat, 10 ^ e ≤ n → n < 10 ^ (e + 1) →
      (decimalDigits n).length = e + 1 := by
  induction e with
  | zero =>
    intro n h1 h2
    rw [decimalDigits, dif_pos (by simpa using h2)]
    simp
  | succ e ih =>
    intro n h1 h2
    have h10 : (10 : Nat) ≤ 10 ^ (e + 1) := by
      calc (10 : Nat) = 10 ^ 1 := by norm_num
      _ ≤ 10 ^ (e + 1) := Nat.pow_le_pow_right (by norm_num) (by omega)
    have hn : ¬ n < 10 := by omega
    have hdiv1 : 10 ^ e ≤ n / 10 := by
      rw [Nat.le_div_iff_mul_le (by norm_num)]
      calc 10 ^ e * 10 = 10 ^ (e + 1) := (pow_succ 10 e).symm
      _ ≤ n := h1
    have hdiv2 : n / 10 < 10 ^ (e + 1) := by
      rw [Nat.div_lt_iff_lt_mul (by norm_num)]
      calc n < 10 ^ (e + 2) := h2
      _ = 10 ^ (e + 1) * 10 := pow_succ 10 (e + 1)
    rw [decimalDigits, dif_neg hn]
    simp [ih (n / 10) hdiv1 hdiv2]

theorem digitChar_isDigit : ∀ d : Nat, d < 10 → (Nat.digitChar d).isDigit = true := by
  decide

theorem decimalDigits_all_isDigit (n : Nat) :
    (decimalDigits n).all Char.isDigit = true := by
  induction n using Nat.strong_induction_on with
  | _ n ih =>
    rw [decimalDigits]
    by_cases h : n < 10
    · rw [dif_pos h]
      simp [digitChar_isDigit n h]
    · rw [dif_neg h]
      rw [List.all_append]
      refine Bool.and_eq_true_iff.mpr
        ⟨ih (n / 10) (Nat.div_lt_self (by omega) (by omega)), ?_⟩
      simp [digitChar_isDigit (n % 10) (Nat.mod_lt n (by omega))]

theorem toString_nat_length_isDigit (e n : Nat) (h1 : 10 ^ e ≤ n) (h2 : n < 10 ^ (e + 1)) :
    (toString n).length = e + 1 ∧ (toString n).data.all Char.isDigit = true := by
  have hrepr : toString n = (decimalDigits n).asString := repr_eq_decimalDigits n
  rw [hrepr]
  exact ⟨decimalDigits_length e n h1 h2, decimalDigits_all_isDigit n⟩

theorem padZero_length_of_le (s : String) (k : Nat) (h : s.length ≤ k) :
    (padZero s k).length = k := by
  unfold padZero
  by_cases h2 : s.length < k
  · rw [if_pos h2, String.length_append]
    have : (String.mk (List.replicate (k - s.length) '0')).length = k - s.length := by
      show (List.replicate (k - s.length) '0').length = k - s.length
      exact List.length_replicate _ _
    omega
  · rw [if_neg h2]
    omega

theorem padZero_all_isDigit (s : String) (k : Nat)
    (h : s.data.all Char.isDigit = true) :
    (padZero s k).data.all Char.isDigit = true := by
  unfold padZero
  by_cases h2 : s.length < k
  · rw [if_pos h2, String.data_append, List.all_append]
    refine Bool.and_eq_true_iff.mpr ⟨?_, h⟩
    show (List.replicate (k - s.length) '0').all Char.isDigit = true
    rw [List.all_eq_true]
    intro c hc
    rw [List.eq_of_mem_replicate hc]
    decide
  · rw [if_neg h2]
    exact h

theorem padZero_toString_digits (n width : Nat) (h0 : 0 < n) (h : n < 10 ^ width) :
    (padZero (toString n) width).length = width ∧
    (padZero (toString n) width).data.all Char.isDigit = true := by
  have hlog1 : 10 ^ Nat.log 10 n ≤ n := Nat.pow_log_le_self 10 (by omega)
  have hlog2 : n < 10 ^ (Nat.log 10 n + 1) := Nat.lt_pow_succ_log_self (by norm_num) n
  obtain ⟨hlen, hdig⟩ := toString_nat_length_isDigit (Nat.log 10 n) n hlog1 hlog2
  have hwidth : Nat.log 10 n + 1 ≤ width :=
    Nat.succ_le_of_lt (Nat.log_lt_of_lt_pow (by omega) h)
  exact ⟨padZero_length_of_le _ _ (by omega), padZero_all_isDigit _ _ hdig⟩

/-! ### Claim theorems -/

/-- C9 counterexample: `generateOrderNumber` does not keep the sequence at
exactly three digits for every positive sequence number. `padStart(3, "0")`
never truncates, so sequence 1000 (on 2026-10-11) yields
"PO-20261011-1000", which does not match `PO-YYYYMMDD-NNN` with a 3-digit
sequence. -/
theorem generateOrderNumber_seq1000_breaks_format :
    ¬ isPOFormat (generateOrderNumber 2026 10 11 1000) := by
  rintro ⟨dateStr, seqStr, heq, hd, -, hs, -⟩
  have hlen : (generateOrderNumber 2026 10 11 1000).length = 16 := by decide
  rw [heq, String.length_append, String.length_append, String.length_append,
    hd, hs] at hlen
  have h1 : ("PO-" : String).length = 3 := rfl
  have h2 : ("-" : String).length = 1 := rfl
  rw [h1, h2] at hlen
  omega

/-- C9 (amended): for every date with a four-digit year, a valid month and
day, and every sequence number between 1 and 999, `generateOrderNumber`
returns `PO-` ++ the date rendered as YYYYMMDD (month and day zero-padded
to two digits) ++ `-` ++ the sequence zero-padded to exactly three
digits, i.e. the result matches `PO-YYYYMMDD-NNN`. Sequence numbers of
1000 or more render with all their digits instead (padStart does not
truncate). -/
theorem generateOrderNumber_format_bounded (y m d s : Nat)
    (hy1 : 1000 ≤ y) (hy2 : y ≤ 9999) (hm1 : 1 ≤ m) (hm2 : m ≤ 12)
    (hd1 : 1 ≤ d) (hd2 : d ≤ 31) (hs1 : 1 ≤ s) (hs2 : s ≤ 999) :
    isPOFormat (generateOrderNumber y m d s) := by
  obtain ⟨hylen, hydig⟩ := toString_nat_length_isDigit 3 y
    (by norm_num; omega) (by norm_num; omega)
  obtain ⟨hmlen, hmdig⟩ := padZero_toString_digits m 2 (by omega)
    (by norm_num; omega)
  obtain ⟨hdlen, hddig⟩ := padZero_toString_digits d 2 (by omega)
    (by norm_num; omega)
  obtain ⟨hslen, hsdig⟩ := padZero_toString_digits s 3 (by omega)
    (by norm_num; omega)
  refine ⟨toString y ++ padZero (toString m) 2 ++ padZero (toString d) 2,
    padZero (toString s) 3, rfl, ?_, ?_, hslen, hsdig⟩
  · rw [String.length_append, String.length_append, hylen, hmlen, hdlen]
  · rw [String.data_append, String.data_append, List.all_append,
      List.all_append, hydig, hmdig, hddig]
    rfl

/-- C9 witness: the amended format theorem at the concrete date
2026-10-11 with sequence 1. -/
theorem generateOrderNumber_format_bounded_witness :
    isPOFormat (generateOrderNumber 2026 10 11 1) :=
  generateOrderNumber_format_bounded 2026 10 11 1 (by omega) (by omega)
    (by omega) (by omega) (by omega) (by omega) (by omega) (by omega)

/-- C1 counterexample: the claim says absence of either id denies, but in
`hasPermission` the ownership check is the strict equality
`userId === resourceOwnerId`, and `undefined === undefined` is `true`:
an active SALES user checking `order:read-own` with both ids absent is
granted. -/
theorem hasPermission_read_own_both_ids_absent :
    hasPermission UserRole.SALES Permission.ORDER_READ_OWN true none none = true := by
  decide

/-- C1 (amended): for every role and activity state, a permission check on
an ownership-scoped permission (`order:read-own` or `visit:read-own`)
returns true iff the user is active, the role holds the permission, and
the acting user id equals the resource owner id as optional values — so
the check fails when exactly one id is absent, but succeeds when both are
absent (JS `undefined === undefined`). -/
theorem hasPermission_ownership_scoped_iff (role : UserRole) (isActive : Bool)
    (u o : Option String) (p : Permission)
    (hp : p = Permission.ORDER_READ_OWN ∨ p = Permission.VISIT_READ_OWN) :
    hasPermission role p isActive u o = true ↔
      (isActive = true ∧ p ∈ ROLE_PERMISSIONS role ∧ u = o) := by
  rcases hp with rfl | rfl <;> cases isActive <;> cases role <;>
    simp [hasPermission, ROLE_PERMISSIONS]

/-- C1 witness: the amended theorem at SALES / `order:read-own` / active,
with both ids supplied and equal. -/
theorem hasPermission_ownership_scoped_iff_witness :
    hasPermission UserRole.SALES Permission.ORDER_READ_OWN true
        (some "u1") (some "u1") = true ↔
      (true = true ∧ Permission.ORDER_READ_OWN ∈ ROLE_PERMISSIONS UserRole.SALES ∧
        (some "u1" : Option String) = some "u1") :=
  hasPermission_ownership_scoped_iff UserRole.SALES true (some "u1") (some "u1")
    Permission.ORDER_READ_OWN (Or.inl rfl)

/-- C2 counterexample: a status change DRAFT → TIDAK_TERKIRIM with
`rejectionReason` absent passes `UpdateOrderStatusSchema` (its only
refinement checks the transition), contradicting the claim that a
rejection reason is required when moving into TIDAK_TERKIRIM. -/
theorem updateOrderStatus_no_reason_accepted :
    updateOrderStatusIssues
      { id := "o1", currentStatus := OrderStatus.DRAFT,
        newStatus := OrderStatus.TIDAK_TERKIRIM, rejectionReason := none,
        deliveryDate := none, userId := "u1", userName := none,
        notes := none } = [] := by
  decide

/-- C2 (amended): `UpdateOrderStatusSchema` does not require a rejection
reason: for every request whose `newStatus` is TIDAK_TERKIRIM, validation
succeeds iff the transition is legal (`currentStatus` is DRAFT or
DISETUJUI), regardless of whether `rejectionReason` is absent, null or
empty. -/
theorem updateOrderStatusIssues_tidak_terkirim (d : UpdateOrderStatus)
    (h : d.newStatus = OrderStatus.TIDAK_TERKIRIM) :
    updateOrderStatusIssues d = [] ↔
      (d.currentStatus = OrderStatus.DRAFT ∨
        d.currentStatus = OrderStatus.DISETUJUI) := by
  cases hcs : d.currentStatus <;>
    simp [updateOrderStatusIssues, h, hcs, OrderStatus.toStr,
      validateStatusTransition, statusTransitionMap]

/-- C2 witness: the amended theorem at a concrete DRAFT → TIDAK_TERKIRIM
request with no rejection reason. -/
theorem updateOrderStatusIssues_tidak_terkirim_witness :
    updateOrderStatusIssues
      { id := "o1", currentStatus := OrderStatus.DRAFT,
        newStatus := OrderStatus.TIDAK_TERKIRIM, rejectionReason := none,
        deliveryDate := none, userId := "u1", userName := none,
        notes := none } = [] ↔
      (OrderStatus.DRAFT = OrderStatus.DRAFT ∨
        OrderStatus.DRAFT = OrderStatus.DISETUJUI) :=
  updateOrderStatusIssues_tidak_terkirim _ rfl

/-- C3: for every role, `hasPermission` with the baseline permission BASIC
returns true regardless of `isActive`; and for every other permission,
`hasPermission` returns false whenever `isActive` is false, regardless of
role (and of any supplied ids). -/
theorem hasPermission_basic_bypass_inactive_denial (role : UserRole)
    (p : Permission) (isActive : Bool) (u o : Option String) :
    hasPermission role Permission.BASIC isActive u o = true ∧
      (p ≠ Permission.BASIC → isActive = false →
        hasPermission role p isActive u o = false) := by
  constructor
  · cases role <;> cases isActive <;> rfl
  · intro hp hia
    subst hia
    simp only [hasPermission, Bool.not_false, Bool.true_and]
    rw [if_pos (by simp [hp])]

/-- C3 witness: an inactive MANAGER still passes BASIC and fails
`order:read`. -/
theorem hasPermission_basic_bypass_inactive_denial_witness :
    hasPermission UserRole.MANAGER Permission.BASIC false none none = true ∧
      hasPermission UserRole.MANAGER Permission.ORDER_READ false none none = false := by
  obtain ⟨h1, h2⟩ := hasPermission_basic_bypass_inactive_denial
    UserRole.MANAGER Permission.ORDER_READ false none none
  exact ⟨h1, h2 (by decide) rfl⟩

/-- C4 counterexample: an unknown `currentStatus` does not always yield
false rather than an error. "constructor" is not one of the four defined
statuses, yet the plain-object lookup returns the member inherited from
`Object.prototype`, `?.` does not short-circuit on it, and calling its
undefined `.includes` throws a `TypeError` (modelled as `none`) instead
of returning false. -/
theorem validateStatusTransition_prototype_key_throws :
    validateStatusTransition "constructor" "DISETUJUI" = none := by decide

/-- C4 (amended): `validateStatusTransition` returns true exactly on the
five pairs DRAFT→DISETUJUI, DRAFT→TIDAK_TERKIRIM, DISETUJUI→TERKIRIM,
DISETUJUI→TIDAK_TERKIRIM, TIDAK_TERKIRIM→DISETUJUI; in particular
DRAFT→TERKIRIM is rejected and everything out of TERKIRIM is rejected.
A currentStatus outside the four defined statuses yields false when it is
not a property name inherited from `Object.prototype`; on an inherited
property name ("constructor", "toString", "__proto__", ...) the call
throws a `TypeError` instead. -/
theorem validateStatusTransition_characterization (currentStatus newStatus : String) :
    (validateStatusTransition currentStatus newStatus = some true ↔
      ((currentStatus = "DRAFT" ∧ newStatus = "DISETUJUI") ∨
       (currentStatus = "DRAFT" ∧ newStatus = "TIDAK_TERKIRIM") ∨
       (currentStatus = "DISETUJUI" ∧ newStatus = "TERKIRIM") ∨
       (currentStatus = "DISETUJUI" ∧ newStatus = "TIDAK_TERKIRIM") ∨
       (currentStatus = "TIDAK_TERKIRIM" ∧ newStatus = "DISETUJUI"))) ∧
    (validateStatusTransition currentStatus newStatus = none ↔
      currentStatus ∈ objectPrototypeMemberNames) := by
  unfold validateStatusTransition statusTransitionMap
  by_cases h1 : currentStatus = "DRAFT"
  · subst h1; simp [objectPrototypeMemberNames]
  · by_cases h2 : currentStatus = "DISETUJUI"
    · subst h2; simp [h1, objectPrototypeMemberNames]
    · by_cases h3 : currentStatus = "TERKIRIM"
      · subst h3; simp [h1, h2, objectPrototypeMemberNames]
      · by_cases h4 : currentStatus = "TIDAK_TERKIRIM"
        · subst h4; simp [h1, h2, h3, objectPrototypeMemberNames]
        · by_cases hc : currentStatus ∈ objectPrototypeMemberNames <;>
            simp [h1, h2, h3, h4, hc]

/-- C5: `BusinessRules.canEditOrder` returns true iff the role is ADMIN
(any status, any ownership), or the role is SALES, the order is in DRAFT,
and the acting user owns the order; MANAGER and BASIC are always denied,
and SALES is denied on any non-DRAFT order. -/
theorem canEditOrder_characterization (role : UserRole)
    (orderStatus userId orderOwnerId : String) :
    canEditOrder role orderStatus userId orderOwnerId = true ↔
      (role = UserRole.ADMIN ∨
        (role = UserRole.SALES ∧ orderStatus = "DRAFT" ∧ userId = orderOwnerId)) := by
  cases role <;> simp [canEditOrder]

/-- C10: `validateUserRole` is total on arbitrary strings and defaults to
least privilege: it returns the input itself when it is exactly one of
the four role strings, and "BASIC" for every other string. -/
theorem validateUserRole_total_least_privilege (role : String) :
    ((role = "ADMIN" ∨ role = "MANAGER" ∨ role = "SALES" ∨ role = "BASIC") →
      validateUserRole role = role) ∧
    (¬ (role = "ADMIN" ∨ role = "MANAGER" ∨ role = "SALES" ∨ role = "BASIC") →
      validateUserRole role = "BASIC") := by
  constructor
  · rintro (rfl | rfl | rfl | rfl) <;> rfl
  · intro h
    push_neg at h
    obtain ⟨h1, h2, h3, h4⟩ := h
    simp [validateUserRole, h1, h2, h3, h4]

/-- C10 witness: a known role string maps to itself; an unknown one maps
to "BASIC". -/
theorem validateUserRole_total_least_privilege_witness :
    validateUserRole "SALES" = "SALES" ∧ validateUserRole "SUPER" = "BASIC" :=
  ⟨(validateUserRole_total_least_privilege "SALES").1 (by simp),
   (validateUserRole_total_least_privilege "SUPER").2 (by simp)⟩

/-- The `UpdateOrderItemSchema` refinements coincide with the
`CreateOrderItemSchema` ones on the shared fields. -/
theorem updateOrderItemIssues_eq (it : UpdateOrderItem) :
    updateOrderItemIssues it = createOrderItemIssues it.toCreateOrderItem := rfl

/-- Membership of the `customPrice` violation in the item issues. -/
theorem mem_createOrderItemIssues_customPrice (it : CreateOrderItem) :
    ["customPrice"] ∈ createOrderItemIssues it ↔
      (it.priceType = PriceType.CUSTOM ∧
        ¬ ∃ p, it.customPrice = some p ∧ (0 : Rat) < p) := by
  simp only [createOrderItemIssues, List.mem_append, mem_ite_singleton]
  cases hcp : it.customPrice <;> simp [hcp]

/-- Membership of the `customPriceReason` violation in the item issues. -/
theorem mem_createOrderItemIssues_customPriceReason (it : CreateOrderItem) :
    ["customPriceReason"] ∈ createOrderItemIssues it ↔
      (it.priceType = PriceType.CUSTOM ∧
        ¬ ∃ r, it.customPriceReason = some r ∧ r.trim ≠ "") := by
  simp only [createOrderItemIssues, List.mem_append, mem_ite_singleton]
  cases hcr : it.customPriceReason <;> simp [hcr]

/-- Membership of the `itemDiscountValue` violation in the item issues. -/
theorem mem_createOrderItemIssues_discount (it : CreateOrderItem) :
    ["itemDiscountValue"] ∈ createOrderItemIssues it ↔
      (it.itemDiscountType = some DiscountType.PERCENTAGE ∧
        (100 : Rat) < it.itemDiscountValue) := by
  simp only [createOrderItemIssues, List.mem_append, mem_ite_singleton]
  simp [not_le]

/-- C6: in Create and Update modes, at item and order level, a PERCENTAGE
discount strictly over 100 fails validation with a violation at the
discount-value path, and a PERCENTAGE value of at most 100 passes that
check. -/
theorem percentage_discount_over_100_rejected :
    (∀ it : CreateOrderItem,
        ["itemDiscountValue"] ∈ createOrderItemIssues it ↔
          (it.itemDiscountType = some DiscountType.PERCENTAGE ∧
            (100 : Rat) < it.itemDiscountValue)) ∧
    (∀ it : UpdateOrderItem,
        ["itemDiscountValue"] ∈ updateOrderItemIssues it ↔
          (it.itemDiscountType = some DiscountType.PERCENTAGE ∧
            (100 : Rat) < it.itemDiscountValue)) ∧
    (∀ o : CreateOrder,
        ["orderDiscountValue"] ∈ createOrderIssues o ↔
          (o.orderDiscountType = some DiscountType.PERCENTAGE ∧
            (100 : Rat) < o.orderDiscountValue)) ∧
    (∀ o : UpdateOrder,
        ["orderDiscountValue"] ∈ updateOrderIssues o ↔
          (o.orderDiscountType = some DiscountType.PERCENTAGE ∧
            ∃ v, o.orderDiscountValue = some v ∧ (100 : Rat) < v)) := by
  refine ⟨mem_createOrderItemIssues_discount, ?_, ?_, ?_⟩
  · intro it
    rw [updateOrderItemIssues_eq]
    exact mem_createOrderItemIssues_discount it.toCreateOrderItem
  · intro o
    simp only [createOrderIssues, List.mem_append, mem_ite_singleton,
      mem_ite_nil_singleton]
    simp [not_le]
  · intro o
    simp only [updateOrderIssues, List.mem_append, mem_ite_singleton,
      mem_ite_nil_singleton]
    cases hv : o.orderDiscountValue <;> simp [hv, not_le]

/-- C7: for every item in Create or Update mode with priceType CUSTOM,
validation fails at path `customPrice` unless `customPrice` is present
and strictly positive (so `customPrice = 0` fails there), and fails at
path `customPriceReason` unless the reason is present and non-empty
after trimming; items whose priceType is not CUSTOM are never rejected
by these two checks. -/
theorem custom_price_requirements :
    (∀ it : CreateOrderItem,
        (it.priceType = PriceType.CUSTOM →
          ((["customPrice"] ∈ createOrderItemIssues it ↔
              ¬ ∃ p, it.customPrice = some p ∧ (0 : Rat) < p) ∧
            (["customPriceReason"] ∈ createOrderItemIssues it ↔
              ¬ ∃ r, it.customPriceReason = some r ∧ r.trim ≠ ""))) ∧
        (it.priceType ≠ PriceType.CUSTOM →
          ["customPrice"] ∉ createOrderItemIssues it ∧
          ["customPriceReason"] ∉ createOrderItemIssues it)) ∧
    (∀ it : UpdateOrderItem,
        (it.priceType = PriceType.CUSTOM →
          ((["customPrice"] ∈ updateOrderItemIssues it ↔
              ¬ ∃ p, it.customPrice = some p ∧ (0 : Rat) < p) ∧
            (["customPriceReason"] ∈ updateOrderItemIssues it ↔
              ¬ ∃ r, it.customPriceReason = some r ∧ r.trim ≠ ""))) ∧
        (it.priceType ≠ PriceType.CUSTOM →
          ["customPrice"] ∉ updateOrderItemIssues it ∧
          ["customPriceReason"] ∉ updateOrderItemIssues it)) := by
  have key : ∀ it : CreateOrderItem,
      (it.priceType = PriceType.CUSTOM →
        ((["customPrice"] ∈ createOrderItemIssues it ↔
            ¬ ∃ p, it.customPrice = some p ∧ (0 : Rat) < p) ∧
          (["customPriceReason"] ∈ createOrderItemIssues it ↔
            ¬ ∃ r, it.customPriceReason = some r ∧ r.trim ≠ ""))) ∧
      (it.priceType ≠ PriceType.CUSTOM →
        ["customPrice"] ∉ createOrderItemIssues it ∧
        ["customPriceReason"] ∉ createOrderItemIssues it) := by
    intro it
    constructor
    · intro h
      exact ⟨(mem_createOrderItemIssues_customPrice it).trans (and_iff_right h),
        (mem_createOrderItemIssues_customPriceReason it).trans (and_iff_right h)⟩
    · intro h
      exact ⟨fun hmem => h ((mem_createOrderItemIssues_customPrice it).mp hmem).1,
        fun hmem => h ((mem_createOrderItemIssues_customPriceReason it).mp hmem).1⟩
  refine ⟨key, fun it => ?_⟩
  rw [updateOrderItemIssues_eq]
  exact key it.toCreateOrderItem

/-- C7 witness: a CUSTOM item with `customPrice = 0` is rejected with a
violation at path `customPrice`. -/
theorem custom_price_requirements_witness :
    ["customPrice"] ∈ createOrderItemIssues customZeroItem := by
  have h := (custom_price_requirements.1 customZeroItem).1 rfl
  refine h.1.mpr ?_
  rintro ⟨p, hp, hpos⟩
  have hp0 : p = (0 : Rat) := by
    simpa [customZeroItem] using hp.symm
  rw [hp0] at hpos
  exact absurd hpos (lt_irrefl 0)

/-- C8: a Create-mode order fails with a violation at path `items` exactly
when two items share a productId; an Update-mode order fails there
exactly when two non-deleted items share a productId, so a duplicate
involving a soft-deleted item is accepted. -/
theorem duplicate_product_ids_rejected :
    (∀ o : CreateOrder,
        ["items"] ∈ createOrderIssues o ↔
          ¬ (o.items.map (fun it => it.productId)).Nodup) ∧
    (∀ o : UpdateOrder,
        ["items"] ∈ updateOrderIssues o ↔
          ¬ ((o.items.filter (fun it => !(it.isDeleted.getD false))).map
              (fun it => it.productId)).Nodup) := by
  constructor
  · intro o
    simp only [createOrderIssues, List.mem_append, mem_ite_singleton,
      mem_ite_nil_singleton]
    simp [dedup_length_eq_iff, -List.length_map]
  · intro o
    simp only [updateOrderIssues, List.mem_append, mem_ite_singleton,
      mem_ite_nil_singleton]
    simp [dedup_length_eq_iff, -List.length_map]

end PODNS
